import Mathlib

/-!
Shallow embedding of the client-side Mesh Session Manager (`AudioService` in
the source) of the Forum-X voice-chat core, together with proofs of the
specified properties.

The embedding follows the source closely:
  * the mutable instance fields of `AudioService` become the fields of
    `AudioState`;
  * each method becomes a state-transformer; the messages it emits over the
    signalling socket are appended to an `emitted` log, error events handed to
    the error callback go to `errorEvents`, and speaking-changed callback
    invocations go to `speakingEvents`;
  * the asynchronous microphone acquisition of `joinDiscussion` is modelled by
    an explicit `Option` argument (`none` = capture denied or failed);
  * `setInterval` / `clearInterval` are modelled by a set of live timer
    identifiers (`activeTimers`) together with the stored interval handle
    (`voiceActivityDetectionInterval` in the source, `vadInterval` here);
  * the body of the voice-activity `setInterval` callback becomes the pure
    step function `vadTick`, taking the closure variable `lastSpeakingState`
    and the sampled audio frame explicitly.
-/

namespace ForumX

/-- An audio track of the local media stream; `enabled` is the flag the source
flips on mute (`track.enabled = !this.isMuted`). -/
structure Track where
  id : Nat
  enabled : Bool
deriving DecidableEq, Repr

/-- A peer connection entry as stored in `this.peerConnections[userId]`.
`pcId` is a creation nonce distinguishing a fresh connection from a prior one
for the same identity; `tracksAdded` records whether local tracks were added
at creation time (source lines 226-230). -/
structure PeerConn where
  pcId : Nat
  tracksAdded : Bool
deriving DecidableEq, Repr

/-- A remote participant entry of the `users` map. -/
structure AudioUser where
  username : String
  isSpeaking : Bool
deriving DecidableEq, Repr

/-- Client-to-server messages emitted over the signalling socket. -/
inductive Msg where
  | joinDiscussionMsg (discussionId : String)
  | leaveDiscussionMsg (discussionId : String)
  | offerMsg (target : String)
  | answerMsg (target : String)
  | iceCandidateMsg (target : String)
  | speakingMsg (discussionId : String) (isSpeaking : Bool)
deriving DecidableEq, Repr

set_option synthInstance.maxHeartbeats 1000000 in
/-- The mutable instance state of `AudioService`.  `hasSocket` models
`this.socket !== null`; `selfId` models `this.socket.id`, with the empty
string standing for a socket identifier that is not (yet) assigned — in the
source an absent identifier is a falsy value, which is exactly how the
initiator guard `this.socket?.id && ...` treats the empty string as well. -/
structure AudioState where
  hasSocket : Bool
  connected : Bool
  discussionId : Option String
  localStream : Option (List Track)
  audioAnalyser : Bool
  microphoneAccessGranted : Bool
  isMuted : Bool
  peerConnections : List (String × PeerConn)
  nextPcId : Nat
  users : List (String × AudioUser)
  selfId : String
  vadInterval : Option Nat
  activeTimers : List Nat
  nextTimerId : Nat
  emitted : List Msg
  errorEvents : List String
  speakingEvents : List (String × Bool)
deriving DecidableEq, Repr

/-- Error message raised when microphone capture fails (source line 193). -/
def micErrorMessage : String := "Could not access microphone. Please check your permissions."

/-- Exception thrown when joining without a connected socket (source line 167). -/
def notConnectedMessage : String := "Audio service not connected"

/-- Sampling cadence of the voice-activity timer, the second argument of
`window.setInterval` (source line 364). -/
def vadSampleIntervalMs : Nat := 200

/-- Decibel threshold for speaking detection (`this.speakingThreshold`,
source line 21). -/
def speakingThreshold : ℚ := -50

/-- Mean of the byte values of the sampled frequency-domain frame
(`sum / dataArray.length`, source lines 329-334). -/
def frameAverage (frame : List Nat) : ℚ := (frame.sum : ℚ) / (frame.length : ℚ)

/-- Executable form of the source's speaking test
`20 * Math.log10(average / 255) > -50` (source line 340).  Squaring removes
the half-integer exponent: for a frame of positive length,
`20*log10((sum/len)/255) > -50  ↔  sum/(255*len) > 10^(-5/2)
↔  100000*sum^2 > 65025*len^2` (with the degenerate all-zero frame giving
`-∞ > -50`, i.e. not speaking, on both sides).  The equivalence with the
source's logarithmic formulation is proved in `vad_classifies_by_threshold`. -/
def computeIsSpeaking (frame : List Nat) : Bool :=
  decide (65025 * frame.length ^ 2 < 100000 * frame.sum ^ 2)

/-- Initiator guard of `createPeerConnection`
(`if (this.socket?.id && this.socket.id < userId)`, source line 262):
the local side initiates when its socket identifier is assigned (truthy,
i.e. non-empty) and lexicographically smaller than the remote identity. -/
def initiates (selfId userId : String) : Bool :=
  selfId != "" && decide (selfId < userId)

/-- `cleanupPeerConnection(userId)` (source lines 275-281): close and delete
the stored connection for `userId`, if any. -/
def cleanupPeerConnection (uid : String) (s : AudioState) : AudioState :=
  { s with peerConnections := s.peerConnections.filter (fun p => p.1 != uid) }

/-- `cleanupPeerConnections()` (source lines 283-287): iterate
`cleanupPeerConnection` over every stored key. -/
def cleanupPeerConnections (s : AudioState) : AudioState :=
  (s.peerConnections.map Prod.fst).foldl (fun acc uid => cleanupPeerConnection uid acc) s

/-- `cleanupLocalStream()` (source lines 289-300): stop and drop the local
stream, close the audio context and drop the analyser. -/
def cleanupLocalStream (s : AudioState) : AudioState :=
  { s with localStream := none, audioAnalyser := false }

/-- `createPeerConnection(userId)` (source lines 214-273): tear down any prior
connection for the identity, create a fresh one, add local tracks when a
stream is present and the local side is not muted, and, when the local side is
the initiator, create and send an offer. -/
def createPeerConnection (uid : String) (s : AudioState) : AudioState :=
  let s0 := cleanupPeerConnection uid s
  let pc : PeerConn := ⟨s0.nextPcId, s0.localStream.isSome && !s0.isMuted⟩
  let s1 := { s0 with
    peerConnections := s0.peerConnections ++ [(uid, pc)],
    nextPcId := s0.nextPcId + 1 }
  if initiates s1.selfId uid then
    { s1 with emitted := s1.emitted ++ [Msg.offerMsg uid] }
  else s1

/-- `startVoiceActivityDetection()` (source lines 316-365), control part:
when an analyser exists, register a fresh periodic timer and store its
handle.  The per-tick callback body is `vadTick` below. -/
def startVoiceActivityDetection (s : AudioState) : AudioState :=
  if !s.audioAnalyser then s
  else
    { s with
      vadInterval := some s.nextTimerId,
      activeTimers := s.activeTimers ++ [s.nextTimerId],
      nextTimerId := s.nextTimerId + 1 }

/-- `stopVoiceActivityDetection()` (source lines 367-372): cancel the stored
periodic timer, if any, and clear the handle. -/
def stopVoiceActivityDetection (s : AudioState) : AudioState :=
  match s.vadInterval with
  | some tid =>
    { s with activeTimers := s.activeTimers.filter (fun t => t != tid), vadInterval := none }
  | none => s

/-- `joinDiscussion(discussionId)` (source lines 165-197).  The outcome of the
asynchronous `getUserMedia` call is passed as `mic` (`none` = denied/failed).
When the socket is absent or not connected the method throws
(`Except.error`); otherwise it stores the discussion identifier, then either
reports capture failure through the error callback and returns `false`, or
sets up capture, emits the join request and starts sampling, returning
`true`.  Note the identifier is stored before the `try` block. -/
def joinDiscussion (discussionId : String) (mic : Option (List Track)) (s : AudioState) :
    Except String (Bool × AudioState) :=
  if !s.hasSocket || !s.connected then
    Except.error notConnectedMessage
  else
    let s1 := { s with discussionId := some discussionId }
    match mic with
    | none =>
      Except.ok (false, { s1 with errorEvents := s1.errorEvents ++ [micErrorMessage] })
    | some tracks =>
      let s2 := { s1 with microphoneAccessGranted := true }
      let s3 := { s2 with audioAnalyser := true }
      let s4 := { s3 with localStream := some tracks }
      let s5 := { s4 with emitted := s4.emitted ++ [Msg.joinDiscussionMsg discussionId] }
      Except.ok (true, startVoiceActivityDetection s5)

/-- `leaveDiscussion()` (source lines 199-212): no-op without a socket or a
stored discussion identifier; otherwise stop sampling, emit the leave
request, tear down every peer connection, release capture and clear the
identifier. -/
def leaveDiscussion (s : AudioState) : AudioState :=
  match s.discussionId with
  | none => s
  | some d =>
    if !s.hasSocket then s
    else
      let s1 := stopVoiceActivityDetection s
      let s2 := { s1 with emitted := s1.emitted ++ [Msg.leaveDiscussionMsg d] }
      let s3 := cleanupPeerConnections s2
      let s4 := cleanupLocalStream s3
      { s4 with discussionId := none }

/-- `toggleMute()` (source lines 400-410): flip the mute flag, set every
local track's `enabled` flag to its negation, return the new mute state. -/
def toggleMute (s : AudioState) : AudioState × Bool :=
  let m := !s.isMuted
  ({ s with
      isMuted := m,
      localStream := s.localStream.map (fun ts => ts.map (fun t => { t with enabled := !m })) },
   m)

/-- `setMute(muted)` (source lines 412-417): toggle when the requested state
differs, otherwise return the current state unchanged. -/
def setMute (muted : Bool) (s : AudioState) : AudioState × Bool :=
  if s.isMuted != muted then toggleMute s else (s, s.isMuted)

/-- Local-user bookkeeping inside the voice-activity callback (source lines
353-362): look up the local user under the socket identifier and, when
present, update its speaking flag and fire the speaking-changed callback. -/
def vadUpdateSelf (s : AudioState) (isSpeaking : Bool) : AudioState :=
  if s.users.any (fun p => p.1 == s.selfId) then
    { s with
      users := s.users.map
        (fun p => if p.1 == s.selfId then (p.1, { p.2 with isSpeaking := isSpeaking }) else p),
      speakingEvents := s.speakingEvents ++ [(s.selfId, isSpeaking)] }
  else s

/-- Body of the voice-activity `setInterval` callback (source lines 322-364).
`last` is the closure variable `lastSpeakingState`; `frame` is the byte array
filled by `getByteFrequencyData`.  Returns the updated state and the new
value of `lastSpeakingState`.  The callback returns immediately when the
analyser or socket is gone or the local side is muted; otherwise it computes
the speaking state from the frame and, only on a transition, emits the
`speaking` message (when a discussion is joined) and updates the local
user. -/
def vadTick (s : AudioState) (last : Bool) (frame : List Nat) : AudioState × Bool :=
  if !s.audioAnalyser || !s.hasSocket || s.isMuted then (s, last)
  else
    let isSpeaking := computeIsSpeaking frame
    if isSpeaking != last then
      let s1 := match s.discussionId with
        | some d => { s with emitted := s.emitted ++ [Msg.speakingMsg d isSpeaking] }
        | none => s
      (vadUpdateSelf s1 isSpeaking, isSpeaking)
    else (s, last)

/-- Follows the claim's words for comparison with `vadTick`: while muted, the
frame is still read and the speaking state still computed and tracked at every
tick; only the `speaking` message to the coordinator is suppressed. -/
def vadTickSpec (s : AudioState) (last : Bool) (frame : List Nat) : AudioState × Bool :=
  if !s.audioAnalyser || !s.hasSocket then (s, last)
  else
    let isSpeaking := computeIsSpeaking frame
    if isSpeaking != last then
      let s1 :=
        if !s.isMuted then
          match s.discussionId with
          | some d => { s with emitted := s.emitted ++ [Msg.speakingMsg d isSpeaking] }
          | none => s
        else s
      (vadUpdateSelf s1 isSpeaking, isSpeaking)
    else (s, last)

/-- A connected, not-yet-joined manager state used as a concrete evaluation
point. -/
def baseState : AudioState where
  hasSocket := true
  connected := true
  discussionId := none
  localStream := none
  audioAnalyser := false
  microphoneAccessGranted := false
  isMuted := false
  peerConnections := []
  nextPcId := 0
  users := [("me", ⟨"alice", false⟩)]
  selfId := "me"
  vadInterval := none
  activeTimers := []
  nextTimerId := 0
  emitted := []
  errorEvents := []
  speakingEvents := []

/-- A state joined to discussion `d1`, holding one peer link and a running
sampling timer. -/
def joinedState : AudioState :=
  { baseState with
    discussionId := some "d1"
    localStream := some [⟨0, true⟩]
    audioAnalyser := true
    microphoneAccessGranted := true
    peerConnections := [("u2", ⟨0, true⟩)]
    nextPcId := 1
    vadInterval := some 0
    activeTimers := [0]
    nextTimerId := 1 }

/-- The joined state with the local participant muted. -/
def mutedState : AudioState := { joinedState with isMuted := true }

/-- A state whose signalling socket is not connected. -/
def disconnectedState : AudioState := { baseState with connected := false }

/-- Folding `cleanupPeerConnection` over a list of keys keeps exactly the
entries whose key is not in the list. -/
theorem foldl_cleanupPeerConnection (ks : List String) (s : AudioState) :
    ks.foldl (fun acc uid => cleanupPeerConnection uid acc) s
      = { s with peerConnections :=
            s.peerConnections.filter (fun p => !(ks.contains p.1)) } := by
  induction ks generalizing s with
  | nil => simp
  | cons k ks ih =>
    rw [List.foldl_cons, ih]
    simp only [cleanupPeerConnection, List.filter_filter]
    congr 1
    apply List.filter_congr
    intro p _
    by_cases hpk : p.1 = k <;>
      simp [List.contains_cons, Bool.not_or, hpk, bne_iff_ne, Bool.and_comm]

/-- `cleanupPeerConnections` empties the peer-connection map and changes
nothing else. -/
theorem cleanupPeerConnections_eq (s : AudioState) :
    cleanupPeerConnections s = { s with peerConnections := [] } := by
  unfold cleanupPeerConnections
  rw [foldl_cleanupPeerConnection]
  congr 1
  rw [List.filter_eq_nil_iff]
  intro p hp
  simp only [Bool.not_eq_true', Bool.not_eq_false]
  exact List.elem_iff.mpr (List.mem_map_of_mem Prod.fst hp)

/-- Peer connections stored by `createPeerConnection`: the prior entry for
the identity is removed and a single fresh entry is appended. -/
theorem createPeerConnection_pcs (uid : String) (s : AudioState) :
    (createPeerConnection uid s).peerConnections
      = s.peerConnections.filter (fun p => p.1 != uid)
        ++ [(uid, ⟨s.nextPcId, s.localStream.isSome && !s.isMuted⟩)] := by
  simp only [createPeerConnection, cleanupPeerConnection]
  split <;> rfl

/-- C5: a speaking-changed event and the corresponding `speaking` message are
emitted only on an actual boolean transition of the computed speaking state:
a sampling tick whose computed state equals the previous one leaves the state
(message log, callback log, users) completely unchanged and keeps the same
`lastSpeakingState`. -/
theorem vadTick_no_event_without_transition (s : AudioState) (last : Bool)
    (frame : List Nat) (h : computeIsSpeaking frame = last) :
    vadTick s last frame = (s, last) := by
  unfold vadTick
  split
  · rfl
  · simp [h]

/-- Witness for `vadTick_no_event_without_transition`: a silent frame sampled
while the stored state is already not-speaking produces no change. -/
theorem vadTick_no_event_without_transition_witness :
    vadTick joinedState false [0] = (joinedState, false) :=
  vadTick_no_event_without_transition joinedState false [0] (by decide)

/-- C3 (counterexample): on a loud frame sampled while muted, the source's
tick (`vadTick`, which returns before reading the frame when `isMuted` is
set) keeps `lastSpeakingState = false`, while the tick the claim describes
(`vadTickSpec`: sampling continues, only the message is suppressed) tracks
the computed state `true` — so sampling does not in fact continue while
muted. -/
theorem vadTick_muted_differs_from_spec :
    (vadTick mutedState false [255]).2 = false ∧
    (vadTickSpec mutedState false [255]).2 = true ∧
    computeIsSpeaking [255] = true := by
  refine ⟨by decide, by decide, by decide⟩

/-- C3 (amended): while the local participant is muted the sampling tick
returns immediately: the frame is not read, no energy is computed, the
stored speaking state is untouched and nothing is emitted — in particular no
`speaking` message is sent, so a muted participant is never reported as
speaking. -/
theorem vadTick_muted_noop (s : AudioState) (last : Bool) (frame : List Nat)
    (h : s.isMuted = true) :
    vadTick s last frame = (s, last) := by
  unfold vadTick
  simp [h]

/-- Witness for `vadTick_muted_noop`: a loud frame sampled while muted changes
nothing. -/
theorem vadTick_muted_noop_witness :
    vadTick mutedState false [255] = (mutedState, false) :=
  vadTick_muted_noop mutedState false [255] rfl

/-- C7: a mute toggle (`toggleMute` or `setMute`) never closes, recreates or
renegotiates a Peer Link: the stored peer connections are unchanged, nothing
is emitted over the signalling channel, the local tracks keep their
identities (only the `enabled` flag may change), and the operation returns
the resulting mute state (`setMute` returning the requested one). -/
theorem toggleMute_preserves_links (s : AudioState) (m : Bool) :
    ((toggleMute s).1.peerConnections = s.peerConnections ∧
     (toggleMute s).1.emitted = s.emitted ∧
     (toggleMute s).1.localStream.map (fun ts => ts.map Track.id)
       = s.localStream.map (fun ts => ts.map Track.id) ∧
     (toggleMute s).2 = (toggleMute s).1.isMuted ∧
     (toggleMute s).2 = !s.isMuted) ∧
    ((setMute m s).1.peerConnections = s.peerConnections ∧
     (setMute m s).1.emitted = s.emitted ∧
     (setMute m s).1.localStream.map (fun ts => ts.map Track.id)
       = s.localStream.map (fun ts => ts.map Track.id) ∧
     (setMute m s).2 = (setMute m s).1.isMuted ∧
     (setMute m s).2 = m) := by
  cases hm : s.isMuted <;> cases m <;> cases h : s.localStream <;>
    simp [toggleMute, setMute, hm, h, List.map_map, Function.comp]

/-- C8: `leaveDiscussion` with a socket and a joined discussion cancels the
periodic sampling timer and clears its handle, sends the leave notification,
tears down every Peer Link, releases the microphone capture and the audio
context, and clears the stored discussion identifier; without a joined
discussion it is a no-op. -/
theorem leaveDiscussion_teardown (s : AudioState) (d : String) :
    (s.hasSocket = true → s.discussionId = some d →
      ((leaveDiscussion s).vadInterval = none ∧
       (leaveDiscussion s).activeTimers
         = s.activeTimers.filter (fun t => some t != s.vadInterval) ∧
       (leaveDiscussion s).emitted = s.emitted ++ [Msg.leaveDiscussionMsg d] ∧
       (leaveDiscussion s).peerConnections = [] ∧
       (leaveDiscussion s).localStream = none ∧
       (leaveDiscussion s).audioAnalyser = false ∧
       (leaveDiscussion s).discussionId = none)) ∧
    (s.discussionId = none → leaveDiscussion s = s) := by
  constructor
  · intro hs hd
    unfold leaveDiscussion
    rw [hd]
    cases hv : s.vadInterval <;>
      simp [hs, stopVoiceActivityDetection, hv, cleanupPeerConnections_eq,
        cleanupLocalStream]
    · exact (List.filter_eq_self.mpr (fun t _ => rfl)).symm
    · rfl
  · intro hd
    unfold leaveDiscussion
    rw [hd]

/-- Witness for `leaveDiscussion_teardown` at the concrete joined state and at
the concrete not-joined state. -/
theorem leaveDiscussion_teardown_witness :
    ((leaveDiscussion joinedState).vadInterval = none ∧
     (leaveDiscussion joinedState).activeTimers
       = joinedState.activeTimers.filter (fun t => some t != joinedState.vadInterval) ∧
     (leaveDiscussion joinedState).emitted
       = joinedState.emitted ++ [Msg.leaveDiscussionMsg "d1"] ∧
     (leaveDiscussion joinedState).peerConnections = [] ∧
     (leaveDiscussion joinedState).localStream = none ∧
     (leaveDiscussion joinedState).audioAnalyser = false ∧
     (leaveDiscussion joinedState).discussionId = none) ∧
    leaveDiscussion baseState = baseState :=
  ⟨(leaveDiscussion_teardown joinedState "d1").1 rfl rfl,
   (leaveDiscussion_teardown baseState "d1").2 rfl⟩

/-- C9: creating a Peer Link for an identity first tears down any existing
link for that identity: afterwards the map holds exactly one entry for it —
the freshly created connection — and distinctness of the stored identities
is preserved, so the map never holds two links for one identity. -/
theorem createPeerConnection_unique_link (s : AudioState) (uid : String)
    (h : (s.peerConnections.map Prod.fst).Nodup) :
    ((createPeerConnection uid s).peerConnections.map Prod.fst).Nodup ∧
    (createPeerConnection uid s).peerConnections.countP (fun p => p.1 == uid) = 1 ∧
    ∀ p ∈ (createPeerConnection uid s).peerConnections,
      p.1 = uid → p.2.pcId = s.nextPcId := by
  rw [createPeerConnection_pcs]
  refine ⟨?_, ?_, ?_⟩
  · rw [List.map_append, List.nodup_append]
    refine ⟨h.sublist ((List.filter_sublist s.peerConnections).map Prod.fst), by simp, ?_⟩
    intro a ha hb
    simp only [List.map_cons, List.map_nil, List.mem_singleton] at hb
    subst hb
    rcases List.mem_map.mp ha with ⟨p, hp, hpa⟩
    rcases List.mem_filter.mp hp with ⟨_, hne⟩
    rw [hpa] at hne
    simp at hne
  · rw [List.countP_append]
    have h0 : (s.peerConnections.filter (fun p => p.1 != uid)).countP
        (fun p => p.1 == uid) = 0 := by
      rw [List.countP_eq_zero]
      intro p hp
      rcases List.mem_filter.mp hp with ⟨_, hne⟩
      simpa using hne
    rw [h0]
    simp
  · intro p hp hpu
    rcases List.mem_append.mp hp with hp | hp
    · rcases List.mem_filter.mp hp with ⟨_, hne⟩
      rw [hpu] at hne
      simp at hne
    · rw [List.mem_singleton] at hp
      rw [hp]

/-- Witness for `createPeerConnection_unique_link`: recreating the link for
the already-linked identity of the concrete joined state. -/
theorem createPeerConnection_unique_link_witness :
    ((createPeerConnection "u2" joinedState).peerConnections.map Prod.fst).Nodup ∧
    (createPeerConnection "u2" joinedState).peerConnections.countP
      (fun p => p.1 == "u2") = 1 :=
  ⟨(createPeerConnection_unique_link joinedState "u2" (by decide)).1,
   (createPeerConnection_unique_link joinedState "u2" (by decide)).2.1⟩

/-- C1 (counterexample): with the empty string — the falsy value the source's
guard `this.socket?.id && this.socket.id < userId` gives an unassigned socket
identifier — as one of the two distinct identities, neither side initiates,
so it is not the case that exactly one of the two initiates. -/
theorem initiates_undefined_id_no_initiator :
    ("" : String) ≠ "a" ∧ initiates "" "a" = false ∧ initiates "a" "" = false :=
  ⟨by decide, by simp [initiates], by simp [initiates]⟩

/-- C1 (amended): for any two distinct participant identities that are both
assigned (non-empty), exactly one of the two sides initiates — the one with
the lexicographically smaller connection identifier — independently of the
order in which their join events arrive (the decision is a pure function of
the unordered pair). -/
theorem initiates_exactly_one (a b : String) (ha : a ≠ "") (hb : b ≠ "")
    (hab : a ≠ b) :
    initiates a b = !(initiates b a) := by
  rcases lt_trichotomy a b with h | h | h
  · have h1 : initiates a b = true := by
      simp [initiates, bne_iff_ne, ha, h]
    have h2 : initiates b a = false := by
      simp [initiates, (lt_asymm h : ¬b < a)]
    rw [h1, h2]
    rfl
  · exact absurd h hab
  · have h1 : initiates a b = false := by
      simp [initiates, (lt_asymm h : ¬a < b)]
    have h2 : initiates b a = true := by
      simp [initiates, bne_iff_ne, hb, h]
    rw [h1, h2]
    rfl

/-- Witness for `initiates_exactly_one` at two concrete identities. -/
theorem initiates_exactly_one_witness :
    initiates "a" "b" = !(initiates "b" "a") :=
  initiates_exactly_one "a" "b" (by decide) (by decide) (by decide)

/-- C2 (counterexample): calling `joinDiscussion "d2"` on the concrete state
joined to `"d1"` (one peer link, sampling timer `0` live) succeeds without
performing any part of a leave: no `leave-discussion` message is emitted
(only the join for `"d2"`), the existing Peer Link survives, and the old
sampling timer `0` is still live next to the newly registered timer `1`. -/
theorem joinDiscussion_while_joined_no_leave :
    (joinDiscussion "d2" (some [⟨1, true⟩]) joinedState).toOption.map
      (fun p => (p.1, p.2.emitted, p.2.peerConnections, p.2.activeTimers,
        p.2.discussionId))
      = some (true, [Msg.joinDiscussionMsg "d2"], [("u2", ⟨0, true⟩)], [0, 1],
        some "d2") := by
  rfl

/-- C2 (amended): calling `joinDiscussion(d2)` while a discussion is already
joined does not perform an implicit leave: it merely overwrites the stored
discussion identifier, emits only the join request for `d2`, keeps every
existing Peer Link, and registers an additional sampling timer without
cancelling the previous one. -/
theorem joinDiscussion_while_joined_overwrites (s : AudioState)
    (d1 d2 : String) (tracks : List Track) (hs : s.hasSocket = true)
    (hc : s.connected = true) (_hd : s.discussionId = some d1) :
    ∃ s2, joinDiscussion d2 (some tracks) s = Except.ok (true, s2) ∧
      s2.discussionId = some d2 ∧
      s2.peerConnections = s.peerConnections ∧
      s2.emitted = s.emitted ++ [Msg.joinDiscussionMsg d2] ∧
      s2.activeTimers = s.activeTimers ++ [s.nextTimerId] := by
  refine ⟨startVoiceActivityDetection
    { s with
      discussionId := some d2
      microphoneAccessGranted := true
      audioAnalyser := true
      localStream := some tracks
      emitted := s.emitted ++ [Msg.joinDiscussionMsg d2] },
    ?_, rfl, rfl, rfl, rfl⟩
  unfold joinDiscussion
  rw [hs, hc]
  rfl

/-- Witness for `joinDiscussion_while_joined_overwrites` at the concrete
joined state. -/
theorem joinDiscussion_while_joined_overwrites_witness :
    ∃ s2, joinDiscussion "d2" (some [⟨1, true⟩]) joinedState
        = Except.ok (true, s2) ∧
      s2.discussionId = some "d2" ∧
      s2.peerConnections = joinedState.peerConnections ∧
      s2.emitted = joinedState.emitted ++ [Msg.joinDiscussionMsg "d2"] ∧
      s2.activeTimers = joinedState.activeTimers ++ [joinedState.nextTimerId] :=
  joinDiscussion_while_joined_overwrites joinedState "d1" "d2" [⟨1, true⟩]
    rfl rfl rfl

/-- C4 (counterexample): with the signalling channel not connected,
`joinDiscussion` throws (`Except.error`) instead of returning a failed-join
`false` with an error event. -/
theorem joinDiscussion_throws_when_disconnected :
    joinDiscussion "d1" none disconnectedState
      = Except.error notConnectedMessage := rfl

/-- C4 (amended): a microphone-capture failure makes `joinDiscussion` return
`false` and raise the error event without throwing, and the manager remains
usable for a retry that can then succeed; a channel failure (socket absent or
not connected), however, makes `joinDiscussion` throw an exception to its
caller. -/
theorem joinDiscussion_error_handling (s : AudioState) (d : String)
    (tracks : List Track) (mic : Option (List Track)) :
    (s.hasSocket = true → s.connected = true →
      ∃ s1, joinDiscussion d none s = Except.ok (false, s1) ∧
        s1.errorEvents = s.errorEvents ++ [micErrorMessage] ∧
        s1.emitted = s.emitted ∧
        ∃ s2, joinDiscussion d (some tracks) s1 = Except.ok (true, s2)) ∧
    (¬(s.hasSocket = true ∧ s.connected = true) →
      joinDiscussion d mic s = Except.error notConnectedMessage) := by
  constructor
  · intro hs hc
    have hj : joinDiscussion d none s = Except.ok (false, { s with
        discussionId := some d
        errorEvents := s.errorEvents ++ [micErrorMessage] }) := by
      unfold joinDiscussion
      rw [hs, hc]
      rfl
    refine ⟨_, hj, rfl, rfl, ?_⟩
    refine ⟨startVoiceActivityDetection { s with
      discussionId := some d
      errorEvents := s.errorEvents ++ [micErrorMessage]
      microphoneAccessGranted := true
      audioAnalyser := true
      localStream := some tracks
      emitted := s.emitted ++ [Msg.joinDiscussionMsg d] }, ?_⟩
    unfold joinDiscussion
    rw [show ({ s with
      discussionId := some d
      errorEvents := s.errorEvents ++ [micErrorMessage] } : AudioState).hasSocket
        = true from hs]
    rw [show ({ s with
      discussionId := some d
      errorEvents := s.errorEvents ++ [micErrorMessage] } : AudioState).connected
        = true from hc]
    rfl
  · intro hnc
    unfold joinDiscussion
    by_cases h1 : s.hasSocket = true
    · by_cases h2 : s.connected = true
      · exact absurd ⟨h1, h2⟩ hnc
      · rw [h1, Bool.eq_false_iff.mpr h2]
        rfl
    · rw [Bool.eq_false_iff.mpr h1]
      rfl

/-- Witness for `joinDiscussion_error_handling`: capture failure on the
concrete connected state, and the throwing branch on the concrete
disconnected state. -/
theorem joinDiscussion_error_handling_witness :
    (∃ s1, joinDiscussion "d1" none baseState = Except.ok (false, s1) ∧
      s1.errorEvents = baseState.errorEvents ++ [micErrorMessage] ∧
      s1.emitted = baseState.emitted ∧
      ∃ s2, joinDiscussion "d1" (some [⟨1, true⟩]) s1 = Except.ok (true, s2)) ∧
    joinDiscussion "d1" none disconnectedState
      = Except.error notConnectedMessage :=
  ⟨(joinDiscussion_error_handling baseState "d1" [⟨1, true⟩] none).1 rfl rfl,
   (joinDiscussion_error_handling disconnectedState "d1" [⟨1, true⟩] none).2
     (by simp [disconnectedState, baseState])⟩

/-- C10: a failed join is not atomic: when microphone capture is denied on a
connected manager, `joinDiscussion` returns `false` but has already stored
the requested discussion identifier, so a subsequent `leaveDiscussion` is not
a no-op — it emits a `leave-discussion` notification for a discussion whose
join request was never sent. -/
theorem joinDiscussion_failure_sets_id (s : AudioState) (d : String)
    (hs : s.hasSocket = true) (hc : s.connected = true) :
    ∃ s1, joinDiscussion d none s = Except.ok (false, s1) ∧
      s1.discussionId = some d ∧
      s1.emitted = s.emitted ∧
      (leaveDiscussion s1).emitted = s.emitted ++ [Msg.leaveDiscussionMsg d] ∧
      (leaveDiscussion s1).discussionId = none ∧
      leaveDiscussion s1 ≠ s1 := by
  have hL : ∀ s1 : AudioState, s1.hasSocket = true → s1.discussionId = some d →
      (leaveDiscussion s1).emitted = s1.emitted ++ [Msg.leaveDiscussionMsg d] ∧
      (leaveDiscussion s1).discussionId = none := by
    intro s1 h1 h2
    unfold leaveDiscussion
    rw [h2]
    cases hv : s1.vadInterval <;>
      simp [h1, stopVoiceActivityDetection, hv, cleanupPeerConnections_eq,
        cleanupLocalStream]
  have hj : joinDiscussion d none s = Except.ok (false, { s with
      discussionId := some d
      errorEvents := s.errorEvents ++ [micErrorMessage] }) := by
    unfold joinDiscussion
    rw [hs, hc]
    rfl
  obtain ⟨hm1, hm2⟩ := hL { s with
      discussionId := some d
      errorEvents := s.errorEvents ++ [micErrorMessage] } hs rfl
  refine ⟨_, hj, rfl, rfl, hm1, hm2, ?_⟩
  intro heq
  have h3 := hm2
  rw [heq] at h3
  simp at h3

/-- Witness for `joinDiscussion_failure_sets_id` at the concrete connected
state. -/
theorem joinDiscussion_failure_sets_id_witness :
    ∃ s1, joinDiscussion "d9" none baseState = Except.ok (false, s1) ∧
      s1.discussionId = some "d9" ∧
      s1.emitted = baseState.emitted ∧
      (leaveDiscussion s1).emitted
        = baseState.emitted ++ [Msg.leaveDiscussionMsg "d9"] ∧
      (leaveDiscussion s1).discussionId = none ∧
      leaveDiscussion s1 ≠ s1 :=
  joinDiscussion_failure_sets_id baseState "d9" rfl rfl

/-- Bridge between the executable speaking test and the source's logarithmic
formulation: for a frame of positive length and positive byte sum, the mean
exceeds the -50 dB threshold exactly when `100000 * sum^2 > 65025 * len^2`
(square both sides of `sum/(255*len) > 10^(-5/2)`). -/
theorem db_lt_iff (s l : Nat) (hl : 0 < l) (hs : 0 < s) :
    ((-50 : ℝ) < 20 * Real.logb 10 ((s : ℝ) / (l : ℝ) / 255)) ↔
      65025 * l ^ 2 < 100000 * s ^ 2 := by
  have hl' : (0:ℝ) < (l : ℝ) := by exact_mod_cast hl
  have hs' : (0:ℝ) < (s : ℝ) := by exact_mod_cast hs
  have hx : (0:ℝ) < (s : ℝ) / (l : ℝ) / 255 := by positivity
  have h10 : (1:ℝ) < 10 := by norm_num
  have hr : (0:ℝ) < (10:ℝ) ^ ((-5/2 : ℝ)) := Real.rpow_pos_of_pos (by norm_num) _
  have hsq : ((10:ℝ) ^ ((-5/2 : ℝ))) ^ 2 = 1 / 100000 := by
    rw [← Real.rpow_natCast ((10:ℝ) ^ ((-5/2 : ℝ))) 2,
      ← Real.rpow_mul (by norm_num : (0:ℝ) ≤ 10)]
    rw [show ((-5/2 : ℝ) * ((2:ℕ) : ℝ)) = -((5:ℕ) : ℝ) by push_cast; ring]
    rw [Real.rpow_neg (by norm_num : (0:ℝ) ≤ 10), Real.rpow_natCast]
    norm_num
  have h5 : ((s:ℝ) / (l:ℝ) / 255) ^ 2 = (s:ℝ) ^ 2 / (65025 * (l:ℝ) ^ 2) := by
    field_simp
    ring
  constructor
  · intro h
    have h1 : (-5/2 : ℝ) < Real.logb 10 ((s:ℝ) / (l:ℝ) / 255) := by linarith
    have h2 : (10:ℝ) ^ ((-5/2 : ℝ)) < (s:ℝ) / (l:ℝ) / 255 :=
      (Real.lt_logb_iff_rpow_lt h10 hx).mp h1
    have h3 : ((10:ℝ) ^ ((-5/2 : ℝ))) ^ 2 < ((s:ℝ) / (l:ℝ) / 255) ^ 2 :=
      pow_lt_pow_left₀ h2 (le_of_lt hr) (by norm_num)
    rw [hsq, h5, div_lt_div_iff₀ (by norm_num) (by positivity)] at h3
    have hfin : (65025:ℝ) * (l:ℝ) ^ 2 < 100000 * (s:ℝ) ^ 2 := by linarith
    exact_mod_cast hfin
  · intro h
    have hR : (65025:ℝ) * (l:ℝ) ^ 2 < 100000 * (s:ℝ) ^ 2 := by exact_mod_cast h
    have h3 : ((10:ℝ) ^ ((-5/2 : ℝ))) ^ 2 < ((s:ℝ) / (l:ℝ) / 255) ^ 2 := by
      rw [hsq, h5, div_lt_div_iff₀ (by norm_num) (by positivity)]
      linarith
    have h2 : (10:ℝ) ^ ((-5/2 : ℝ)) < (s:ℝ) / (l:ℝ) / 255 :=
      lt_of_pow_lt_pow_left₀ 2 (le_of_lt hx) h3
    have h1 : (-5/2 : ℝ) < Real.logb 10 ((s:ℝ) / (l:ℝ) / 255) :=
      (Real.lt_logb_iff_rpow_lt h10 hx).mpr h2
    linarith

/-- C6: the voice-activity detector samples at a 200 ms cadence and, for a
nonempty frame, classifies the local participant as speaking exactly when the
mean of the frequency-domain byte values of the frame, converted to decibels
as `20 * log10(mean / 255)`, strictly exceeds the fixed threshold `-50`.
The `0 < frame.sum` conjunct captures the all-zero frame, where the source
computes `20 * log10(0) = -∞`, which does not exceed the threshold. -/
theorem vad_classifies_by_threshold (frame : List Nat) (hl : 0 < frame.length) :
    vadSampleIntervalMs = 200 ∧ speakingThreshold = -50 ∧
    (computeIsSpeaking frame = true ↔
      0 < frame.sum ∧
      ((speakingThreshold : ℝ) <
        20 * Real.logb 10 ((frameAverage frame : ℝ) / 255))) := by
  refine ⟨rfl, rfl, ?_⟩
  rw [computeIsSpeaking, decide_eq_true_eq]
  have hcast : ((frameAverage frame : ℚ) : ℝ)
      = (frame.sum : ℝ) / (frame.length : ℝ) := by
    rw [frameAverage, Rat.cast_div, Rat.cast_natCast, Rat.cast_natCast]
  have hth : ((speakingThreshold : ℚ) : ℝ) = -50 := by
    norm_num [speakingThreshold]
  rw [hcast, hth]
  constructor
  · intro h
    have hs : 0 < frame.sum := by
      rcases Nat.eq_zero_or_pos frame.sum with h0 | h0
      · rw [h0] at h
        simp at h
      · exact h0
    exact ⟨hs, (db_lt_iff frame.sum frame.length hl hs).mpr h⟩
  · rintro ⟨hs, hdb⟩
    exact (db_lt_iff frame.sum frame.length hl hs).mp hdb

/-- Witness for `vad_classifies_by_threshold` on a concrete loud frame. -/
theorem vad_classifies_by_threshold_witness :
    vadSampleIntervalMs = 200 ∧ speakingThreshold = -50 ∧
    (computeIsSpeaking [255] = true ↔
      0 < ([255] : List Nat).sum ∧
      ((speakingThreshold : ℝ) <
        20 * Real.logb 10 ((frameAverage [255] : ℝ) / 255))) :=
  vad_classifies_by_threshold [255] (by decide)

end ForumX
